import Mathlib

/-!
Verification development for the traffic-signal decision engine of
`intelligent_traffic_control`.

This file gives a shallow embedding, in Lean 4, of the core components of the
repository (signal phases, safety validator, lane state tracker, smoothing
filter bank, traffic state estimator, adaptive controller, emergency priority
FSM, integrated arbiter) and proves or refutes the frozen behavioural claims
about them.

Embedding conventions:
- Python floats are embedded as `ℚ` (all arithmetic in the sources is exact
  decimal arithmetic; no claim depends on float rounding).
- Python dicts are embedded as association lists with insertion-order
  semantics: assignment to an existing key updates it in place, assignment to
  a fresh key appends, and iteration follows list order.
- `np.sqrt` is kept abstract as a parameter `sqrtQ : ℚ → ℚ`; every comparison
  `sqrt(x) < c` in the sources (with `c > 0`, `x ≥ 0`) is embedded in the
  equivalent squared form `x < c²`, which is exact since `Real.sqrt` is
  monotone.  `sqrtQ` itself only flows into stored magnitudes
  (`avg_speed`, `vehicle_speeds`, `vehicle_last_speed`) that no claim reads.
- Fallible Python code (KeyError / AttributeError / raise) is embedded with
  `Option` / `Except`.
-/

namespace Traffic

/-- Association-list lookup with decidable equality (Python `dict.get`). -/
def alookup {α β : Type} [DecidableEq α] (k : α) : List (α × β) → Option β
  | [] => none
  | p :: rest => if p.1 = k then some p.2 else alookup k rest

/-- Python dict assignment `d[k] = v`: update in place if the key is present,
append otherwise. -/
def dictSet {α β : Type} [DecidableEq α] (m : List (α × β)) (k : α) (v : β) :
    List (α × β) :=
  if (alookup k m).isSome then
    m.map (fun p => if p.1 = k then (p.1, v) else p)
  else
    m ++ [(k, v)]

/-- Python in-place modification of an existing entry (`d[k].append(x)` etc.);
keys without an entry are left untouched. -/
def dictModify {α β : Type} [DecidableEq α] (m : List (α × β)) (k : α)
    (f : β → β) : List (α × β) :=
  m.map (fun p => if p.1 = k then (p.1, f p.2) else p)

/-- Mean of a list of rationals (`np.mean`). -/
def listMean (xs : List ℚ) : ℚ := xs.foldl (· + ·) 0 / xs.length

/-- Maximum of a list with a default for the empty list (`max(...)` guarded by
a non-emptiness check in the sources). -/
def listMaxD (xs : List ℚ) (d : ℚ) : ℚ :=
  match xs with
  | [] => d
  | x :: rest => rest.foldl max x

/-- Minimum of a non-empty list (`min(...)`), `none` on the empty list. -/
def listMinO (xs : List ℚ) : Option ℚ :=
  match xs with
  | [] => none
  | x :: rest => some (rest.foldl min x)

/-- Characters of a string up to (excluding) the first underscore. -/
def takeUntilUnderscore : List Char → List Char
  | [] => []
  | c :: rest => if c = '_' then [] else c :: takeUntilUnderscore rest

/-- Python `lane_id.split('_')[0]`: the approach letter of a lane id. -/
def laneApproachOf (lid : String) : String :=
  String.mk (takeUntilUnderscore lid.data)

/-- Boolean list-prefix test used to embed Python `str.startswith`. -/
def listStarts : List Char → List Char → Bool
  | [], _ => true
  | _ :: _, [] => false
  | a :: as, b :: bs => a = b && listStarts as bs

/-- Python `s.startswith(pre)`. -/
def strStarts (s pre : String) : Bool := listStarts pre.data s.data

/-- Python `int(x)` on a float: truncation toward zero. -/
def intTrunc (q : ℚ) : ℤ := if 0 ≤ q then ⌊q⌋ else ⌈q⌉

/-! ## `control/signal_phases.py` -/

/-- The `PhaseType` enum of `signal_phases.py`. -/
inductive PhaseType where
  | NS_THROUGH
  | EW_THROUGH
  | NS_LEFT
  | EW_LEFT
  | ALL_RED
  | EMERGENCY_NS
  | EMERGENCY_EW
deriving DecidableEq, Repr

/-- The `SignalPhase` dataclass: static per-phase configuration. -/
structure SignalPhase where
  phase_type : PhaseType
  phase_id : ℤ
  green_approaches : List String
  min_duration : ℚ
  max_duration : ℚ
  yellow_duration : ℚ
  all_red_duration : ℚ
  sumo_state_green : String
  sumo_state_yellow : String
  sumo_state_red : String := "rrrrrrrrrrrr"
deriving DecidableEq, Repr

/-- The `SignalPhaseController.phases` dict: only four phases are configured;
`get_phase` on any other `PhaseType` is a Python `KeyError`, embedded as
`none`. -/
def phasesLookup : PhaseType → Option SignalPhase
  | .NS_THROUGH => some
      { phase_type := .NS_THROUGH, phase_id := 0
        green_approaches := ["N", "S"]
        min_duration := 10, max_duration := 60
        yellow_duration := 3, all_red_duration := 2
        sumo_state_green := "GGGrrrGGGrrr"
        sumo_state_yellow := "yyyrrryyyrrr" }
  | .EW_THROUGH => some
      { phase_type := .EW_THROUGH, phase_id := 1
        green_approaches := ["E", "W"]
        min_duration := 10, max_duration := 60
        yellow_duration := 3, all_red_duration := 2
        sumo_state_green := "rrrGGGrrrGGG"
        sumo_state_yellow := "rrryyyrrryyy" }
  | .EMERGENCY_NS => some
      { phase_type := .EMERGENCY_NS, phase_id := 5
        green_approaches := ["N", "S"]
        min_duration := 15, max_duration := 120
        yellow_duration := 3, all_red_duration := 2
        sumo_state_green := "GGGrrrGGGrrr"
        sumo_state_yellow := "yyyrrryyyrrr" }
  | .EMERGENCY_EW => some
      { phase_type := .EMERGENCY_EW, phase_id := 6
        green_approaches := ["E", "W"]
        min_duration := 15, max_duration := 120
        yellow_duration := 3, all_red_duration := 2
        sumo_state_green := "rrrGGGrrrGGG"
        sumo_state_yellow := "rrryyyrrryyy" }
  | _ => none

/-! ## `control/safety_validator.py` -/

/-- Mutable state of a `SafetyValidator` instance. `min_phase_gap` is fixed to
`5.0` in `__init__` and the conflict table is static, so only
`last_phase_change` is state. -/
structure SafetyValidator where
  last_phase_change : ℚ
deriving DecidableEq, Repr

/-- The `MIN_PHASE_GAP` value set in `SafetyValidator.__init__`. -/
def minPhaseGap : ℚ := 5

/-- Fresh validator, as produced by `SafetyValidator.__init__`. -/
def SafetyValidator.init : SafetyValidator := ⟨0⟩

/-- Body of `SafetyValidator.validate_transition`.  The min-gap check comes
first; the same-phase check comes second; the conflict-table branch is a
`pass` (conflicting phases are accepted, the controller routes them through
clearance). -/
def SafetyValidator.validate_transition (v : SafetyValidator)
    (current_phase next_phase : PhaseType) (current_time : ℚ)
    (reason : String := "") : Bool × String :=
  if current_time - v.last_phase_change < minPhaseGap then
    (false, "Too soon (min gap: 5.0s)")
  else if current_phase = next_phase then
    (true, "Same phase")
  else
    (true, "Safe transition: " ++ reason)

/-- `SafetyValidator.record_transition`. -/
def SafetyValidator.record_transition (_v : SafetyValidator)
    (current_time : ℚ) : SafetyValidator :=
  ⟨current_time⟩

/-- `SafetyValidator.check_emergency_override_safe`. -/
def SafetyValidator.check_emergency_override_safe (v : SafetyValidator)
    (_current_phase _emergency_phase : PhaseType) (current_time : ℚ) :
    Bool × String :=
  if current_time - v.last_phase_change < 2 then
    (false, "Cannot override within 2 seconds of last change")
  else
    (true, "Emergency override approved")

/-! ## Module evaluation model for `control/safety_validator.py` (C10)

Importing a Python module executes its top level; executing a `def` evaluates
each type annotation expression, in source order, in the module's global
scope.  We model name resolution over the set of names the module actually
binds (its three imports) plus the builtins it uses; `Tuple` is bound by
neither. -/

/-- Builtin names resolvable in any module scope that `safety_validator.py`
could rely on. `Tuple` and `Optional` are `typing` exports, not builtins. -/
def pythonBuiltins : List String :=
  ["print", "isinstance", "float", "str", "int", "bool", "type",
   "ValueError", "TypeError"]

/-- Names bound at `safety_validator.py` module level before the class body
runs: `from typing import Optional`, `from control.signal_phases import
PhaseType, SignalPhase`, `import time`. -/
def safetyValidatorImports : List String :=
  ["Optional", "PhaseType", "SignalPhase", "time"]

/-- Names referenced by the method signature type expressions of class
`SafetyValidator`, in the order CPython evaluates them while executing the
class body: `validate_transition` (parameters then return), then
`record_transition`, `validate_phase_duration`,
`check_emergency_override_safe`. -/
def safetyValidatorSignatureRefs : List String :=
  ["PhaseType", "PhaseType", "float", "str", "Tuple",
   "float",
   "SignalPhase", "float", "float",
   "PhaseType", "PhaseType", "float", "Tuple"]

/-- Evaluate a list of names in an environment; the first unresolvable name
raises `NameError`, embedded as `Except.error`. -/
def resolveNames (env : List String) : List String → Except String Unit
  | [] => .ok ()
  | n :: rest =>
      if n ∈ env then resolveNames env rest
      else .error ("NameError: name " ++ n ++ " is not defined")

/-- Evaluating the `safety_validator` module: bind the imports, then run the
class body, which evaluates every method signature reference. -/
def importSafetyValidatorModule : Except String Unit :=
  resolveNames (pythonBuiltins ++ safetyValidatorImports)
    safetyValidatorSignatureRefs

/-! ## `perception/types.py` -/

/-- The frozen `PerceivedVehicle` dataclass.  `track_id` is an `int` by type
(the `isinstance` check of `__post_init__` cannot fail in the embedding). -/
structure PerceivedVehicle where
  track_id : ℤ
  class_name : String
  is_emergency : Bool
  confidence : ℚ
  position : ℚ × ℚ
  velocity : ℚ × ℚ
  lane_id : Option String
  distance_to_stop_line : ℚ
  bbox : ℚ × ℚ × ℚ × ℚ := (0, 0, 0, 0)
deriving DecidableEq, Repr

/-- Construction of a `PerceivedVehicle`, running the `__post_init__`
validation: the confidence range check, then the lane/distance check.  A
`raise` is embedded as `Except.error`. -/
def mkPerceivedVehicle (track_id : ℤ) (class_name : String)
    (is_emergency : Bool) (confidence : ℚ) (position velocity : ℚ × ℚ)
    (lane_id : Option String) (distance_to_stop_line : ℚ)
    (bbox : ℚ × ℚ × ℚ × ℚ := (0, 0, 0, 0)) :
    Except String PerceivedVehicle :=
  if ¬(0 ≤ confidence ∧ confidence ≤ 1) then
    .error "confidence must be in [0, 1]"
  else if lane_id = none ∧ distance_to_stop_line ≠ -1 then
    .error "distance_to_stop_line must be -1.0 when lane_id is None"
  else
    .ok ⟨track_id, class_name, is_emergency, confidence, position, velocity,
      lane_id, distance_to_stop_line, bbox⟩

/-! ## `state_estimation/lane_state_tracker.py` -/

/-- The frozen `LaneState` dataclass. -/
structure LaneState where
  lane_id : String
  timestamp : ℚ
  vehicle_count : ℤ := 0
  stopped_vehicles : ℤ := 0
  queue_length : ℚ := 0
  queue_vehicle_count : ℤ := 0
  density : ℚ := 0
  avg_speed : ℚ := 0
  avg_waiting_time : ℚ := 0
  has_emergency_vehicle : Bool := false
  emergency_vehicle_distance : Option ℚ := none
  vehicle_distances : List ℚ := []
  vehicle_speeds : List ℚ := []
deriving DecidableEq, Repr

/-- The default zero-valued `LaneState(lane_id=l, timestamp=t)`. -/
def LaneState.mkDefault (l : String) (t : ℚ) : LaneState :=
  { lane_id := l, timestamp := t }

/-- Squared speed magnitude `velocity[0]**2 + velocity[1]**2`; the source
compares `np.sqrt` of this against `STOPPED_SPEED_THRESHOLD = 0.5`, which is
equivalent to comparing this against `(1/2)² = 1/4`. -/
def speedSq (v : ℚ × ℚ) : ℚ := v.1 * v.1 + v.2 * v.2

/-- `STOPPED_SPEED_THRESHOLD ** 2`. -/
def stoppedThresholdSq : ℚ := 1 / 4

/-- `QUEUE_DISTANCE_THRESHOLD`. -/
def queueDistanceThreshold : ℚ := 30

/-- `LANE_LENGTH`. -/
def laneLength : ℚ := 100

/-- `CLEANUP_TIMEOUT`. -/
def cleanupTimeout : ℚ := 10

/-- Mutable state of a `LaneStateTracker` (the write-only `state_history`
debug buffer, which no claimed behaviour reads, is not carried). -/
structure TrackerState where
  lane_ids : List String
  current_states : List (String × LaneState) := []
  vehicle_first_seen : List (ℤ × ℚ) := []
  vehicle_stop_time : List (ℤ × Option ℚ) := []
  vehicle_last_speed : List (ℤ × ℚ) := []
  vehicle_last_lane : List (ℤ × String) := []
deriving DecidableEq, Repr

/-- `LaneStateTracker.__init__`. -/
def TrackerState.init (lane_ids : List String) : TrackerState :=
  { lane_ids := lane_ids }

/-- First half of the grouping loop in `update`: registration of
first appearances and last-lane tracking for one vehicle. -/
def registerVehicle (t : ℚ) (st : TrackerState) (v : PerceivedVehicle) :
    TrackerState :=
  let st :=
    if (alookup v.track_id st.vehicle_first_seen).isSome then st
    else
      { st with
        vehicle_first_seen := dictSet st.vehicle_first_seen v.track_id t
        vehicle_stop_time := dictSet st.vehicle_stop_time v.track_id none
        vehicle_last_speed := dictSet st.vehicle_last_speed v.track_id 0 }
  match v.lane_id with
  | none => st
  | some l =>
      if l = "" then st  -- Python truthiness: `if vehicle.lane_id:`
      else { st with vehicle_last_lane := dictSet st.vehicle_last_lane v.track_id l }

/-- Second half of the grouping loop: append the vehicle to its lane's bucket,
provided the lane id is truthy and configured. -/
def groupStep (m : List (String × List PerceivedVehicle))
    (v : PerceivedVehicle) : List (String × List PerceivedVehicle) :=
  match v.lane_id with
  | none => m
  | some l =>
      if l = "" then m
      else if (alookup l m).isSome then dictModify m l (fun vs => vs ++ [v])
      else m

/-- The `vehicles_by_lane` dict: one (initially empty) bucket per configured
lane, filled by iterating the perceived vehicles in order. -/
def vehiclesByLane (lane_ids : List String) (vs : List PerceivedVehicle) :
    List (String × List PerceivedVehicle) :=
  vs.foldl groupStep (lane_ids.map (fun l => (l, ([] : List PerceivedVehicle))))

/-- One step of `_update_stop_times`. The fetched `prev_speed` is unused in
the source.  The comparison `speed < 0.5` is embedded squared. -/
def updateStopTimesStep (sqrtQ : ℚ → ℚ) (t : ℚ) (st : TrackerState)
    (v : PerceivedVehicle) : TrackerState :=
  let sq := speedSq v.velocity
  let st :=
    if sq < stoppedThresholdSq then
      match alookup v.track_id st.vehicle_stop_time with
      | some (some _) => st
      | _ => { st with vehicle_stop_time := dictSet st.vehicle_stop_time v.track_id (some t) }
    else
      { st with vehicle_stop_time := dictSet st.vehicle_stop_time v.track_id none }
  { st with vehicle_last_speed := dictSet st.vehicle_last_speed v.track_id (sqrtQ sq) }

/-- `LaneStateTracker._update_stop_times`. -/
def updateStopTimes (sqrtQ : ℚ → ℚ) (st : TrackerState)
    (vs : List PerceivedVehicle) (t : ℚ) : TrackerState :=
  vs.foldl (updateStopTimesStep sqrtQ t) st

/-- `LaneStateTracker._compute_lane_state`, evaluated against the stop-time
map as it stands after `_update_stop_times`. -/
def computeLaneState (sqrtQ : ℚ → ℚ)
    (stopTimes : List (ℤ × Option ℚ)) (lane_id : String)
    (vehicles : List PerceivedVehicle) (t : ℚ) : LaneState :=
  if vehicles = [] then LaneState.mkDefault lane_id t
  else
    let distances := vehicles.filterMap
      (fun v => if 0 ≤ v.distance_to_stop_line then some v.distance_to_stop_line else none)
    let speeds := vehicles.map (fun v => sqrtQ (speedSq v.velocity))
    let stopped_count : ℤ :=
      (vehicles.filter (fun v => speedSq v.velocity < stoppedThresholdSq)).length
    let queued := vehicles.filter (fun v =>
      0 ≤ v.distance_to_stop_line ∧
      v.distance_to_stop_line ≤ queueDistanceThreshold ∧
      speedSq v.velocity < stoppedThresholdSq)
    let vehicle_count : ℤ := vehicles.length
    let avg_speed := if speeds = [] then 0 else listMean speeds
    let queue_length :=
      if queued = [] then 0
      else listMaxD (queued.map (fun v => v.distance_to_stop_line)) 0
    let queue_vehicle_count : ℤ := if queued = [] then 0 else queued.length
    let density := ((vehicle_count : ℚ) / laneLength) * 100
    let waiting_times := vehicles.filterMap (fun v =>
      if speedSq v.velocity < stoppedThresholdSq then
        match alookup v.track_id stopTimes with
        | some (some s) => some (t - s)
        | _ => none
      else none)
    let avg_waiting_time := if waiting_times = [] then 0 else listMean waiting_times
    let emergency_vehicles := vehicles.filter (fun v => v.is_emergency)
    let has_emergency := ¬(emergency_vehicles = [])
    let emergency_distances := emergency_vehicles.filterMap
      (fun v => if 0 ≤ v.distance_to_stop_line then some v.distance_to_stop_line else none)
    let emergency_distance := listMinO emergency_distances
    { lane_id := lane_id
      timestamp := t
      vehicle_count := vehicle_count
      stopped_vehicles := stopped_count
      queue_length := queue_length
      queue_vehicle_count := queue_vehicle_count
      density := density
      avg_speed := avg_speed
      avg_waiting_time := avg_waiting_time
      has_emergency_vehicle := has_emergency
      emergency_vehicle_distance := emergency_distance
      vehicle_distances := distances
      vehicle_speeds := speeds }

/-- `LaneStateTracker._cleanup_old_vehicles`. -/
def cleanupOldVehicles (st : TrackerState) (vs : List PerceivedVehicle)
    (t : ℚ) : TrackerState :=
  let currentIds := vs.map (fun v => v.track_id)
  let keep : ℤ → Bool := fun id =>
    match alookup id st.vehicle_first_seen with
    | none => true
    | some fs => decide (id ∈ currentIds) || decide (¬(t - fs > cleanupTimeout))
  { st with
    vehicle_first_seen := st.vehicle_first_seen.filter (fun p => keep p.1)
    vehicle_stop_time := st.vehicle_stop_time.filter (fun p => keep p.1)
    vehicle_last_speed := st.vehicle_last_speed.filter (fun p => keep p.1)
    vehicle_last_lane := st.vehicle_last_lane.filter (fun p => keep p.1) }

/-- `LaneStateTracker.update`: register/group the vehicles, update stop
times, compute one `LaneState` per configured lane (empty lanes included),
install the snapshot, and clean up departed vehicles. -/
def trackerUpdate (sqrtQ : ℚ → ℚ) (st : TrackerState)
    (vs : List PerceivedVehicle) (t : ℚ) : TrackerState :=
  let st := vs.foldl (registerVehicle t) st
  let groups := vehiclesByLane st.lane_ids vs
  let st := updateStopTimes sqrtQ st vs t
  let newStates := st.lane_ids.map (fun l =>
    (l, computeLaneState sqrtQ st.vehicle_stop_time l ((alookup l groups).getD []) t))
  let st := { st with current_states := newStates }
  cleanupOldVehicles st vs t

/-- `LaneStateTracker.get_all_states` (returns a copy of the dict). -/
def getAllStates (st : TrackerState) : List (String × LaneState) :=
  st.current_states

/-- `LaneStateTracker.get_approach_state`: lanes whose id starts with the
approach letter followed by an underscore. -/
def getApproachState (st : TrackerState) (approach : String) :
    List (String × LaneState) :=
  st.current_states.filter (fun p => strStarts p.1 (approach ++ "_"))

/-- The aggregate dict returned by `get_approach_metrics`. -/
structure ApproachMetrics where
  total_vehicles : ℤ
  total_queue_length : ℚ
  avg_density : ℚ
  avg_waiting_time : ℚ
  stopped_vehicles : ℤ
  has_emergency : Bool
deriving DecidableEq, Repr

/-- `LaneStateTracker.get_approach_metrics`. -/
def getApproachMetrics (st : TrackerState) (approach : String) :
    ApproachMetrics :=
  let states := (getApproachState st approach).map (fun p => p.2)
  if states = [] then
    { total_vehicles := 0, total_queue_length := 0, avg_density := 0
      avg_waiting_time := 0, stopped_vehicles := 0, has_emergency := false }
  else
    let total_vehicles := (states.map (fun s => s.vehicle_count)).foldl (· + ·) 0
    let total_queue_length := (states.map (fun s => s.queue_length)).foldl (· + ·) 0
    let avg_density := listMean (states.map (fun s => s.density))
    let total_waiting := (states.map
      (fun s => s.avg_waiting_time * ((s.stopped_vehicles : ℚ)))).foldl (fun a b => a + b) 0
    let total_stopped : ℤ := (states.map (fun s => s.stopped_vehicles)).foldl (· + ·) 0
    let avg_waiting_time :=
      if 0 < total_stopped then total_waiting / (total_stopped : ℚ) else 0
    let has_emergency := states.any (fun s => s.has_emergency_vehicle)
    { total_vehicles := total_vehicles
      total_queue_length := total_queue_length
      avg_density := avg_density
      avg_waiting_time := avg_waiting_time
      stopped_vehicles := total_stopped
      has_emergency := has_emergency }

/-! ## `state_estimation/smoothing.py` -/

/-- One `ExponentialMovingAverage.update` call on the filter's state dict: the
first observation initialises the series, later ones blend with factor
`alpha`.  Returns the smoothed value together with the updated dict. -/
def emaUpdate (alpha : ℚ) (state : List (String × ℚ)) (key : String)
    (value : ℚ) : ℚ × List (String × ℚ) :=
  match alookup key state with
  | none => (value, dictSet state key value)
  | some s =>
      let s' := alpha * value + (1 - alpha) * s
      (s', dictSet state key s')

/-- The `MultiVariableEMA` built by `TrafficStateEstimator.__init__`: four
independent per-metric filters (`queue_length` α=0.3, `density` α=0.4,
`avg_waiting_time` α=0.2, `vehicle_count` α=0.5), each keyed by the string
`key ++ "_" ++ metric` exactly as the f-string in the source does. -/
structure SmootherState where
  queueF : List (String × ℚ) := []
  densityF : List (String × ℚ) := []
  waitF : List (String × ℚ) := []
  countF : List (String × ℚ) := []
deriving DecidableEq, Repr

/-- `MultiVariableEMA.update` for the four metrics the estimator smooths. -/
def smootherUpdate (sm : SmootherState) (key : String)
    (queue density wait count : ℚ) :
    (ℚ × ℚ × ℚ × ℚ) × SmootherState :=
  let (q, qF) := emaUpdate (3/10) sm.queueF (key ++ "_" ++ "queue_length") queue
  let (d, dF) := emaUpdate (4/10) sm.densityF (key ++ "_" ++ "density") density
  let (w, wF) := emaUpdate (2/10) sm.waitF (key ++ "_" ++ "avg_waiting_time") wait
  let (c, cF) := emaUpdate (5/10) sm.countF (key ++ "_" ++ "vehicle_count") count
  ((q, d, w, c), { queueF := qF, densityF := dF, waitF := wF, countF := cF })

/-! ## `state_estimation/state_estimator.py` -/

/-- The frozen `IntersectionState` dataclass. -/
structure IntersectionState where
  timestamp : ℚ
  lane_states : List (String × LaneState)
  approach_metrics : List (String × ApproachMetrics)
  total_vehicles : ℤ
  total_stopped : ℤ
  total_waiting_time : ℚ
  max_queue_length : ℚ
  has_emergency : Bool
  emergency_approach : Option String := none
  emergency_distance : Option ℚ := none
deriving DecidableEq, Repr

/-- Mutable state of a `TrafficStateEstimator`. -/
structure EstimatorState where
  tracker : TrackerState
  smoother : SmootherState := {}
  enable_smoothing : Bool := true
  lane_ids : List String
deriving DecidableEq, Repr

/-- `TrafficStateEstimator.__init__`. -/
def EstimatorState.init (lane_ids : List String)
    (enable_smoothing : Bool := true) : EstimatorState :=
  { tracker := TrackerState.init lane_ids
    enable_smoothing := enable_smoothing
    lane_ids := lane_ids }

/-- `TrafficStateEstimator._smooth_states` on one lane: a fresh immutable
`LaneState` copy with the four smoothed metrics replaced (`vehicle_count`
through Python `int()` truncation) and everything else carried over. -/
def smoothOneState (sm : SmootherState) (lane_id : String) (s : LaneState) :
    LaneState × SmootherState :=
  let ((q, d, w, c), sm') :=
    smootherUpdate sm lane_id s.queue_length s.density s.avg_waiting_time
      (s.vehicle_count : ℚ)
  ({ lane_id := s.lane_id
     timestamp := s.timestamp
     vehicle_count := intTrunc c
     stopped_vehicles := s.stopped_vehicles
     queue_length := q
     queue_vehicle_count := s.queue_vehicle_count
     density := d
     avg_speed := s.avg_speed
     avg_waiting_time := w
     has_emergency_vehicle := s.has_emergency_vehicle
     emergency_vehicle_distance := s.emergency_vehicle_distance
     vehicle_distances := s.vehicle_distances
     vehicle_speeds := s.vehicle_speeds }, sm')

/-- `TrafficStateEstimator._smooth_states`, iterating the state dict in
order. -/
def smoothStates (sm : SmootherState) (states : List (String × LaneState)) :
    List (String × LaneState) × SmootherState :=
  states.foldl
    (fun (acc : List (String × LaneState) × SmootherState) p =>
      let (s', sm') := smoothOneState acc.2 p.1 p.2
      (acc.1 ++ [(p.1, s')], sm'))
    ([], sm)

/-- `TrafficStateEstimator.update`: tracker update, optional smoothing,
approach-level metrics (computed by `lane_tracker.get_approach_metrics`, i.e.
from the tracker's raw states), intersection-level aggregation over the
smoothed states, and emergency resolution. -/
def estimatorUpdate (sqrtQ : ℚ → ℚ) (es : EstimatorState)
    (vs : List PerceivedVehicle) (t : ℚ) :
    IntersectionState × EstimatorState :=
  let tracker' := trackerUpdate sqrtQ es.tracker vs t
  let rawStates := getAllStates tracker'
  let (smoothedStates, smoother') :=
    if es.enable_smoothing then smoothStates es.smoother rawStates
    else (rawStates, es.smoother)
  let approachMetrics := ["N", "S", "E", "W"].map
    (fun a => (a, getApproachMetrics tracker' a))
  let smoothedVals := smoothedStates.map (fun p => p.2)
  let total_vehicles : ℤ :=
    (smoothedVals.map (fun s => s.vehicle_count)).foldl (· + ·) 0
  let total_stopped : ℤ :=
    (smoothedVals.map (fun s => s.stopped_vehicles)).foldl (· + ·) 0
  let total_waiting_time :=
    (smoothedVals.map (fun s => s.avg_waiting_time * ((s.stopped_vehicles : ℚ)))).foldl
      (fun a b => a + b) 0
  let queue_lengths := smoothedVals.map (fun s => s.queue_length)
  let max_queue_length := if queue_lengths = [] then 0 else listMaxD queue_lengths 0
  let has_emergency := smoothedVals.any (fun s => s.has_emergency_vehicle)
  let emergency_approach :=
    if has_emergency then
      (approachMetrics.find? (fun p => p.2.has_emergency)).map (fun p => p.1)
    else none
  let emergency_distance :=
    if has_emergency then
      listMinO ((smoothedVals.filter
        (fun s => s.has_emergency_vehicle && s.emergency_vehicle_distance.isSome)).filterMap
        (fun s => s.emergency_vehicle_distance))
    else none
  let istate : IntersectionState :=
    { timestamp := t
      lane_states := smoothedStates
      approach_metrics := approachMetrics
      total_vehicles := total_vehicles
      total_stopped := total_stopped
      total_waiting_time := total_waiting_time
      max_queue_length := max_queue_length
      has_emergency := has_emergency
      emergency_approach := emergency_approach
      emergency_distance := emergency_distance }
  (istate, { es with tracker := tracker', smoother := smoother' })

/-! ## `control/emergency_priority.py` -/

/-- The `EmergencyState` enum (5 states, frozen). -/
inductive EmergencyState where
  | NORMAL
  | DETECTED
  | PREEMPTING
  | CLEARING
  | COOLDOWN
deriving DecidableEq, Repr

/-- Frozen timing constants of `EmergencyPriorityController`. -/
def detectionThreshold : ℚ := 100
/-- `PREEMPTION_THRESHOLD`. -/
def preemptionThreshold : ℚ := 80
/-- `CLEARING_DISTANCE`. -/
def clearingDistance : ℚ := 5
/-- `CLEARANCE_TIME`. -/
def clearanceTime : ℚ := 5
/-- `COOLDOWN_TIME`. -/
def cooldownTime : ℚ := 10

/-- Mutable state of an `EmergencyPriorityController`. -/
structure EmFSM where
  state : EmergencyState := .NORMAL
  emergency_approach : Option String := none
  emergency_distance : Option ℚ := none
  emergency_phase : Option PhaseType := none
  state_entry_time : ℚ := 0
deriving DecidableEq, Repr

/-- `EmergencyPriorityController.__init__` / `reset`. -/
def EmFSM.init : EmFSM := {}

/-- `EmergencyPriorityController._detect_emergency`: scan the lane states in
dict order for the closest emergency vehicle with strictly positive
distance. -/
def detectEmergency (i : IntersectionState) : Bool × Option String × Option ℚ :=
  if ¬i.has_emergency then (false, none, none)
  else
    let closest := i.lane_states.foldl
      (fun (acc : Option (String × ℚ)) p =>
        if ¬p.2.has_emergency_vehicle then acc
        else
          match p.2.emergency_vehicle_distance with
          | none => acc
          | some d =>
              let better : Bool :=
                match acc with
                | none => decide (0 < d)
                | some (_, cd) => decide (0 < d ∧ d < cd)
              if better then some (laneApproachOf p.1, d) else acc)
      none
    match closest with
    | none => (false, none, none)
    | some (a, d) => (true, some a, some d)

/-- `EmergencyPriorityController._get_emergency_phase`. -/
def getEmergencyPhase (approach : String) : PhaseType :=
  if approach = "N" ∨ approach = "S" then .EMERGENCY_NS else .EMERGENCY_EW

/-- `EmergencyPriorityController.update`: detect, then dispatch on the
current state exactly as the five `_update_*` handlers do. -/
def emergencyUpdate (f : EmFSM) (i : IntersectionState) (t : ℚ) : EmFSM :=
  let (has_emergency, approach, distance) := detectEmergency i
  match f.state with
  | .NORMAL =>
      match distance with
      | some d =>
          if has_emergency ∧ d ≤ detectionThreshold then
            { f with state := .DETECTED, state_entry_time := t
                     emergency_approach := approach
                     emergency_distance := some d }
          else f
      | none => f
  | .DETECTED =>
      match distance with
      | none =>
          { f with state := .NORMAL, emergency_approach := none
                   emergency_distance := none }
      | some d =>
          if ¬has_emergency then
            { f with state := .NORMAL, emergency_approach := none
                     emergency_distance := none }
          else
            let f := { f with emergency_approach := approach
                              emergency_distance := some d }
            if d ≤ preemptionThreshold then
              { f with state := .PREEMPTING, state_entry_time := t
                       emergency_phase := some (getEmergencyPhase (approach.getD "")) }
            else f
  | .PREEMPTING =>
      match distance with
      | none => { f with state := .CLEARING, state_entry_time := t }
      | some d =>
          if ¬has_emergency then
            { f with state := .CLEARING, state_entry_time := t }
          else
            let f := { f with emergency_distance := some d }
            if d ≤ clearingDistance then
              { f with state := .CLEARING, state_entry_time := t }
            else f
  | .CLEARING =>
      if t - f.state_entry_time ≥ clearanceTime then
        { f with state := .COOLDOWN, state_entry_time := t }
      else f
  | .COOLDOWN =>
      if t - f.state_entry_time ≥ cooldownTime then
        { f with state := .NORMAL, emergency_approach := none
                 emergency_distance := none, emergency_phase := none }
      else f

/-- `EmergencyPriorityController.get_signal_command`. -/
def getSignalCommand (f : EmFSM) : Bool × Option PhaseType :=
  if f.state = .PREEMPTING ∨ f.state = .CLEARING then (true, f.emergency_phase)
  else (false, none)

/-- `EmergencyPriorityController.is_active`. -/
def EmFSM.isActive (f : EmFSM) : Bool :=
  decide (f.state = .PREEMPTING ∨ f.state = .CLEARING)

/-! ## `control/adaptive_controller.py` -/

/-- `max_wait_before_override` fixed in `AdaptiveController.__init__`. -/
def maxWaitBeforeOverride : ℚ := 90

/-- Mutable state of an `AdaptiveController`.  The lazily created
`yellow_start_time` / `all_red_start_time` attributes are explicit `Option`
fields (`none` = attribute absent). -/
structure AdaptiveState where
  min_green : ℚ := 10
  max_green : ℚ := 60
  saturation_flow : ℚ := 1/2
  validator : SafetyValidator := SafetyValidator.init
  current_phase : PhaseType := .NS_THROUGH
  phase_start_time : ℚ := 0
  planned_green_time : ℚ := 10
  in_transition : Bool := false
  transition_stage : ℤ := 0
  transition_target_phase : Option PhaseType := none
  phase_wait_times : List (PhaseType × ℚ) := [(.NS_THROUGH, 0), (.EW_THROUGH, 0)]
  yellow_start_time : Option ℚ := none
  all_red_start_time : Option ℚ := none
deriving DecidableEq, Repr

/-- `AdaptiveController.__init__` with the defaults used by the integrated
controller. -/
def AdaptiveState.init : AdaptiveState := {}

/-- `AdaptiveController._update_wait_times`: zero the served phase's timer,
add the fixed `0.1` tick to every other timer in the dict. -/
def updateWaitTimes (current : PhaseType) (w : List (PhaseType × ℚ)) :
    List (PhaseType × ℚ) :=
  let w := dictSet w current 0
  w.map (fun p => if p.1 = current then p else (p.1, p.2 + 1/10))

/-- `AdaptiveController._select_next_phase`: alternate NS↔EW, unless some
other phase's wait timer exceeds `max_wait_before_override`, in which case
the first such phase (in dict order) is forced. -/
def selectNextPhase (current : PhaseType) (w : List (PhaseType × ℚ)) :
    PhaseType :=
  let candidate : PhaseType :=
    if current = .NS_THROUGH then .EW_THROUGH else .NS_THROUGH
  match w.find? (fun p => maxWaitBeforeOverride < p.2 ∧ p.1 ≠ current) with
  | some p => p.1
  | none => candidate

/-- `AdaptiveController._calculate_green_time` (the capped Webster-style
rule); `none` embeds the `KeyError` of `get_phase` on an unconfigured
phase. -/
def calculateGreenTime (st : AdaptiveState) (i : IntersectionState)
    (pt : PhaseType) : Option ℚ :=
  match phasesLookup pt with
  | none => none
  | some phase =>
      let approaches := phase.green_approaches
      let total_queue := (approaches.map (fun a =>
        ((alookup a i.approach_metrics).map
          (fun m => m.total_queue_length)).getD 0)).foldl (· + ·) 0
      let total_vehicles : ℤ := (approaches.map (fun a =>
        ((alookup a i.approach_metrics).map
          (fun m => m.total_vehicles)).getD 0)).foldl (· + ·) 0
      if total_vehicles = 0 then some st.min_green
      else
        let vehicles_in_queue := total_queue / 7
        let clear_time := vehicles_in_queue /
          (st.saturation_flow * (approaches.length : ℚ) * 3)
        let green_time := clear_time * (3/2)
        some (max st.min_green (min st.max_green green_time))

/-- `AdaptiveController._handle_transition`.  `none` embeds an escaped Python
exception (missing attribute / `get_phase` on `None`). -/
def handleTransition (st : AdaptiveState) (t : ℚ) :
    Option (String × AdaptiveState) :=
  match phasesLookup st.current_phase with
  | none => none
  | some cfg =>
      if st.transition_stage = 1 then
        let (ys, st) :=
          match st.yellow_start_time with
          | none => (t, { st with yellow_start_time := some t })
          | some y => (y, st)
        if t - ys ≥ cfg.yellow_duration then
          some (cfg.sumo_state_yellow,
            { st with transition_stage := 2, all_red_start_time := some t
                      yellow_start_time := none })
        else
          some (cfg.sumo_state_yellow, st)
      else if st.transition_stage = 2 then
        match st.all_red_start_time with
        | none => none
        | some ar =>
            if t - ar ≥ cfg.all_red_duration then
              match st.transition_target_phase with
              | none => none
              | some tgt =>
                  match phasesLookup tgt with
                  | none => none
                  | some ncfg =>
                      some (ncfg.sumo_state_green,
                        { st with current_phase := tgt, phase_start_time := t
                                  in_transition := false, transition_stage := 0
                                  validator := st.validator.record_transition t
                                  all_red_start_time := none })
            else
              some (cfg.sumo_state_red, st)
      else
        some (cfg.sumo_state_green, st)

/-- `AdaptiveController.update`: possibly start (or block) a transition, then
update the starvation wait timers, then either drive the yellow/all-red
transition or emit the current phase's green string. -/
def adaptiveUpdate (st : AdaptiveState) (i : IntersectionState) (t : ℚ) :
    Option (String × AdaptiveState) :=
  let phase_elapsed := t - st.phase_start_time
  let st :=
    if ¬st.in_transition ∧ phase_elapsed ≥ st.planned_green_time then
      let next := selectNextPhase st.current_phase st.phase_wait_times
      match calculateGreenTime st i next with
      | none => st   -- unreachable for the NS/EW candidates, kept for totality
      | some g =>
          let st' := { st with in_transition := true, transition_stage := 1
                               transition_target_phase := some next
                               planned_green_time := g }
          let ok := (st'.validator.validate_transition st'.current_phase next t
            "Adaptive").1
          if ¬ok then
            { st' with in_transition := false
                       planned_green_time := phase_elapsed + 5 }
          else st'
    else st
  let st := { st with
    phase_wait_times := updateWaitTimes st.current_phase st.phase_wait_times }
  if st.in_transition then
    handleTransition st t
  else
    match phasesLookup st.current_phase with
    | none => none
    | some cfg => some (cfg.sumo_state_green, st)

/-! ## `control/signal_controller.py` -/

/-- Mutable state of an `IntegratedSignalController`. -/
structure IntegratedState where
  adaptive : AdaptiveState := AdaptiveState.init
  emergency : EmFSM := EmFSM.init
  in_emergency_mode : Bool := false
deriving DecidableEq, Repr

/-- `IntegratedSignalController.update`: run the emergency FSM, query its
command; if active, return the forced emergency phase's green string
verbatim (the adaptive controller is not invoked); otherwise delegate to the
adaptive controller and return its result unmodified. -/
def integratedUpdate (s : IntegratedState) (i : IntersectionState) (t : ℚ) :
    Option (String × IntegratedState) :=
  let f' := emergencyUpdate s.emergency i t
  let (is_emergency, emergency_phase) := getSignalCommand f'
  if is_emergency then
    match emergency_phase with
    | none => none   -- Python: `get_phase(None)` raises `KeyError`
    | some p =>
        match phasesLookup p with
        | none => none
        | some cfg =>
            some (cfg.sumo_state_green,
              { s with emergency := f', in_emergency_mode := true })
  else
    (adaptiveUpdate s.adaptive i t).map (fun r =>
      (r.1, { adaptive := r.2, emergency := f', in_emergency_mode := false }))

/-! ## Shared helper lemmas and fixtures -/

/-- Boolean error-test on `Except`. -/
def exceptIsError {α β : Type} : Except α β → Bool
  | .error _ => true
  | .ok _ => false

/-- Stopped vehicle in lane `N_0`, used as a concrete fixture. -/
def vehN0Fix : PerceivedVehicle :=
  ⟨7, "car", false, 1, (0, 0), (0, 0), some "N_0", 12, (0, 0, 0, 0)⟩

/-- An empty intersection snapshot, used as a concrete fixture. -/
def emptyIState : IntersectionState :=
  { timestamp := 0, lane_states := [], approach_metrics := []
    total_vehicles := 0, total_stopped := 0, total_waiting_time := 0
    max_queue_length := 0, has_emergency := false }

/-! ## Theorems for the claims -/

/-- C10: evaluating `control/safety_validator.py` fails with a `NameError` on
`Tuple`: the module imports only `Optional` from `typing`, yet the signature
of `validate_transition` (and of `check_emergency_override_safe`) references
`Tuple`, which CPython evaluates while executing the class body at import
time.  Hence constructing a `SafetyValidator` — which every fixed-time and
adaptive controller does — raises, and no call to `validate_transition` in
the module as written can return an `(ok, reason)` pair. -/
theorem c10_tuple_name_resolution_fails :
    importSafetyValidatorModule =
      .error "NameError: name Tuple is not defined" := by
  rfl

/-- C3 counterexample: with the validator fresh (`last_phase_change = 0`), a
same-phase request at `t = 3` is rejected — the min-gap check runs before the
same-phase check, so `ok = False` even though current and next phase
coincide.  The claim says such a request always returns `ok = True`. -/
theorem c3_same_phase_rejected_within_gap_cx :
    (SafetyValidator.validate_transition ⟨0⟩ .NS_THROUGH .NS_THROUGH 3).1
      = false := by
  norm_num [SafetyValidator.validate_transition, minPhaseGap]

/-- C3 amended: a same-phase request returns `ok = True` provided the minimum
phase gap (5 s) since the last recorded phase change has elapsed; within the
gap it is rejected like any other request. -/
theorem c3_same_phase_safe_after_gap (v : SafetyValidator) (p : PhaseType)
    (t : ℚ) (h : minPhaseGap ≤ t - v.last_phase_change) :
    (v.validate_transition p p t).1 = true := by
  have h' : ¬(t - v.last_phase_change < minPhaseGap) := not_lt.2 h
  simp [SafetyValidator.validate_transition, h']

/-- Witness for `c3_same_phase_safe_after_gap` at a concrete input. -/
theorem c3_same_phase_safe_after_gap_witness :
    (SafetyValidator.validate_transition ⟨0⟩ .EW_THROUGH .EW_THROUGH 6).1
      = true :=
  c3_same_phase_safe_after_gap ⟨0⟩ .EW_THROUGH 6 (by norm_num [minPhaseGap])

/-- C6: for two distinct phases, if a transition request is accepted at time
`t` and `record_transition(t)` is called, a second request 3.0 s later is
rejected, while a second request 5.1 s later is accepted: the validator
enforces `now - last_phase_change ≥ 5`. -/
theorem c6_safety_gap_three_vs_five (v : SafetyValidator)
    (p q : PhaseType) (t : ℚ) (hpq : p ≠ q)
    (hacc : (v.validate_transition p q t).1 = true) :
    ((v.record_transition t).validate_transition p q (t + 3)).1 = false ∧
    ((v.record_transition t).validate_transition p q (t + 51/10)).1 = true := by
  constructor
  · simp only [SafetyValidator.validate_transition,
      SafetyValidator.record_transition, minPhaseGap]
    norm_num
  · simp only [SafetyValidator.validate_transition,
      SafetyValidator.record_transition, minPhaseGap]
    norm_num [hpq]

/-- Witness for `c6_safety_gap_three_vs_five` at a concrete input. -/
theorem c6_safety_gap_three_vs_five_witness :
    ((SafetyValidator.record_transition ⟨0⟩ 7).validate_transition
        .NS_THROUGH .EW_THROUGH (7 + 3)).1 = false ∧
    ((SafetyValidator.record_transition ⟨0⟩ 7).validate_transition
        .NS_THROUGH .EW_THROUGH (7 + 51/10)).1 = true :=
  c6_safety_gap_three_vs_five ⟨0⟩ .NS_THROUGH .EW_THROUGH 7
    (by decide)
    (by simp only [SafetyValidator.validate_transition, minPhaseGap]
        norm_num
        decide)

/-- C9 counterexample: a `PerceivedVehicle` with a lane assigned and the
sentinel distance `-1.0` is accepted by `__post_init__` — the validation only
checks the direction `lane_id is None → distance == -1.0`, so the claimed
"fails for every input violating either direction of the equivalence" is
false. -/
theorem c9_lane_with_sentinel_distance_accepted_cx :
    exceptIsError (mkPerceivedVehicle 1 "car" false 1 (0, 0) (0, 0)
      (some "N_in_0") (-1)) = false := by
  norm_num [mkPerceivedVehicle, exceptIsError]

/-- C9 amended: construction of a `PerceivedVehicle` fails exactly when the
confidence is outside `[0, 1]` or when `lane_id` is `None` with a distance
other than `-1.0`; the converse direction (a lane present together with
distance `-1.0`) is tolerated. -/
theorem c9_vehicle_validation_characterisation (track_id : ℤ)
    (class_name : String) (is_emergency : Bool) (confidence : ℚ)
    (position velocity : ℚ × ℚ) (lane_id : Option String)
    (distance_to_stop_line : ℚ) (bbox : ℚ × ℚ × ℚ × ℚ) :
    exceptIsError (mkPerceivedVehicle track_id class_name is_emergency
        confidence position velocity lane_id distance_to_stop_line bbox)
      = true ↔
    (¬(0 ≤ confidence ∧ confidence ≤ 1) ∨
      (lane_id = none ∧ distance_to_stop_line ≠ -1)) := by
  unfold mkPerceivedVehicle
  split_ifs with h1 h2 <;> simp [exceptIsError, *]

/-- C2: for every `IntersectionState` input and every time, from `PREEMPTING`
one `update` step of the emergency FSM can only stay in `PREEMPTING`
(self-loop) or move to `CLEARING`; the states `NORMAL`, `DETECTED` and
`COOLDOWN` are never reached directly from `PREEMPTING`. -/
theorem c2_preempting_successors (f : EmFSM) (i : IntersectionState) (t : ℚ)
    (h : f.state = .PREEMPTING) :
    ((emergencyUpdate f i t).state = .PREEMPTING ∨
     (emergencyUpdate f i t).state = .CLEARING) ∧
    (emergencyUpdate f i t).state ≠ .NORMAL ∧
    (emergencyUpdate f i t).state ≠ .DETECTED ∧
    (emergencyUpdate f i t).state ≠ .COOLDOWN := by
  rcases hde : detectEmergency i with ⟨he, ap, dist⟩
  simp only [emergencyUpdate, hde, h]
  cases dist with
  | none => simp
  | some d =>
      by_cases hh : he = true <;> by_cases hd : d ≤ clearingDistance <;>
        simp [hh, hd]

/-- Intersection snapshot carrying an emergency vehicle 50 m out in lane
`N_in_0`. -/
def emergencyIState : IntersectionState :=
  { timestamp := 0
    lane_states := [("N_in_0",
      { lane_id := "N_in_0", timestamp := 0, vehicle_count := 1
        stopped_vehicles := 0, queue_length := 0, queue_vehicle_count := 0
        density := 1, avg_speed := 10, avg_waiting_time := 0
        has_emergency_vehicle := true, emergency_vehicle_distance := some 50
        vehicle_distances := [50], vehicle_speeds := [10] })]
    approach_metrics := []
    total_vehicles := 1, total_stopped := 0, total_waiting_time := 0
    max_queue_length := 0, has_emergency := true
    emergency_approach := some "N", emergency_distance := some 50 }

/-- Witness for `c2_preempting_successors` at a concrete input: a preempting
FSM fed a snapshot whose emergency vehicle is still 50 m out. -/
theorem c2_preempting_successors_witness :
    ((emergencyUpdate
        { state := .PREEMPTING, emergency_approach := some "N"
          emergency_distance := some 80
          emergency_phase := some .EMERGENCY_NS, state_entry_time := 0 }
        emergencyIState 1).state = .PREEMPTING ∨
     (emergencyUpdate
        { state := .PREEMPTING, emergency_approach := some "N"
          emergency_distance := some 80
          emergency_phase := some .EMERGENCY_NS, state_entry_time := 0 }
        emergencyIState 1).state = .CLEARING) ∧
    (emergencyUpdate
        { state := .PREEMPTING, emergency_approach := some "N"
          emergency_distance := some 80
          emergency_phase := some .EMERGENCY_NS, state_entry_time := 0 }
        emergencyIState 1).state ≠ .NORMAL ∧
    (emergencyUpdate
        { state := .PREEMPTING, emergency_approach := some "N"
          emergency_distance := some 80
          emergency_phase := some .EMERGENCY_NS, state_entry_time := 0 }
        emergencyIState 1).state ≠ .DETECTED ∧
    (emergencyUpdate
        { state := .PREEMPTING, emergency_approach := some "N"
          emergency_distance := some 80
          emergency_phase := some .EMERGENCY_NS, state_entry_time := 0 }
        emergencyIState 1).state ≠ .COOLDOWN :=
  c2_preempting_successors _ emergencyIState 1 rfl

/-! ### Association-list lemmas for the tracker proofs -/

theorem map_fst_pairs {α β : Type} (g : α → β) (ids : List α) :
    (ids.map (fun x => (x, g x))).map Prod.fst = ids := by
  induction ids with
  | nil => rfl
  | cons x xs ih => simp [ih]

theorem alookup_map_of_mem {α β : Type} [DecidableEq α] (g : α → β)
    (ids : List α) (l : α) (h : l ∈ ids) :
    alookup l (ids.map (fun x => (x, g x))) = some (g l) := by
  induction ids with
  | nil => cases h
  | cons x xs ih =>
      by_cases hx : x = l
      · subst hx; simp [alookup]
      · have hmem : l ∈ xs := by
          rcases List.mem_cons.1 h with h' | h'
          · exact absurd h'.symm hx
          · exact h'
        simp [alookup, hx, ih hmem]

theorem alookup_dictModify_ne {α β : Type} [DecidableEq α]
    (m : List (α × β)) (k k' : α) (f : β → β) (h : ¬(k' = k)) :
    alookup k (dictModify m k' f) = alookup k m := by
  induction m with
  | nil => rfl
  | cons p rest ih =>
      rcases p with ⟨a, b⟩
      by_cases hak' : a = k'
      · subst hak'
        have hak : ¬(a = k) := fun he => h (he ▸ rfl)
        simp [dictModify, alookup, hak]
        simpa [dictModify] using ih
      · by_cases hak : a = k
        · subst hak
          simp [dictModify, alookup, hak']
        · simp [dictModify, alookup, hak, hak']
          simpa [dictModify] using ih

theorem groupStep_alookup_ne (m : List (String × List PerceivedVehicle))
    (v : PerceivedVehicle) (l : String) (h : v.lane_id ≠ some l) :
    alookup l (groupStep m v) = alookup l m := by
  rcases hv : v.lane_id with _ | l'
  · simp [groupStep, hv]
  · have hne : ¬(l' = l) := by
      intro he; exact h (by rw [hv, he])
    simp only [groupStep, hv]
    split_ifs with h1 h2
    · rfl
    · exact alookup_dictModify_ne m l l' _ hne
    · rfl

theorem foldl_groupStep_alookup_ne (vs : List PerceivedVehicle)
    (m : List (String × List PerceivedVehicle)) (l : String)
    (h : ∀ v ∈ vs, v.lane_id ≠ some l) :
    alookup l (vs.foldl groupStep m) = alookup l m := by
  induction vs generalizing m with
  | nil => rfl
  | cons v rest ih =>
      have h1 := h v (List.mem_cons_self v rest)
      have h2 : ∀ w ∈ rest, w.lane_id ≠ some l := fun w hw =>
        h w (List.mem_cons_of_mem v hw)
      simp only [List.foldl_cons]
      rw [ih _ h2, groupStep_alookup_ne m v l h1]

theorem registerVehicle_lane_ids (t : ℚ) (st : TrackerState)
    (v : PerceivedVehicle) : (registerVehicle t st v).lane_ids = st.lane_ids := by
  rcases hv : v.lane_id with _ | l <;>
    simp only [registerVehicle, hv] <;> split_ifs <;> rfl

theorem foldl_registerVehicle_lane_ids (t : ℚ) (vs : List PerceivedVehicle)
    (st : TrackerState) :
    (vs.foldl (registerVehicle t) st).lane_ids = st.lane_ids := by
  induction vs generalizing st with
  | nil => rfl
  | cons v rest ih => simp only [List.foldl_cons]; rw [ih, registerVehicle_lane_ids]

theorem updateStopTimesStep_lane_ids (sqrtQ : ℚ → ℚ) (t : ℚ)
    (st : TrackerState) (v : PerceivedVehicle) :
    (updateStopTimesStep sqrtQ t st v).lane_ids = st.lane_ids := by
  simp only [updateStopTimesStep]
  split_ifs
  · rcases alookup v.track_id st.vehicle_stop_time with _ | s
    · rfl
    · rcases s with _ | s' <;> rfl
  · rfl

theorem updateStopTimes_lane_ids (sqrtQ : ℚ → ℚ) (st : TrackerState)
    (vs : List PerceivedVehicle) (t : ℚ) :
    (updateStopTimes sqrtQ st vs t).lane_ids = st.lane_ids := by
  unfold updateStopTimes
  induction vs generalizing st with
  | nil => rfl
  | cons v rest ih =>
      simp only [List.foldl_cons]; rw [ih, updateStopTimesStep_lane_ids]

/-- C5: after any `update` — for every list of perceived vehicles, including
vehicles with no lane, vehicles in unconfigured lanes, and ticks that place a
vehicle in every configured lane — the snapshot returned by `get_all_states`
has exactly the configured lanes as keys (in configuration order); moreover a
configured lane that received no vehicle this tick maps to the well-formed
zero-valued `LaneState` — never a missing entry. -/
theorem c5_snapshot_complete_per_lane (sqrtQ : ℚ → ℚ) (st : TrackerState)
    (vs : List PerceivedVehicle) (t : ℚ) :
    ((getAllStates (trackerUpdate sqrtQ st vs t)).map Prod.fst = st.lane_ids) ∧
    ∀ l ∈ st.lane_ids, (∀ v ∈ vs, v.lane_id ≠ some l) →
      alookup l (getAllStates (trackerUpdate sqrtQ st vs t)) =
        some (LaneState.mkDefault l t) := by
  have hreg := foldl_registerVehicle_lane_ids t vs st
  have hstop := updateStopTimes_lane_ids sqrtQ (vs.foldl (registerVehicle t) st) vs t
  constructor
  · simp only [trackerUpdate, getAllStates, cleanupOldVehicles]
    rw [hstop, hreg]
    exact map_fst_pairs _ _
  · intro l hl hnone
    simp only [trackerUpdate, getAllStates, cleanupOldVehicles]
    rw [hstop, hreg]
    rw [alookup_map_of_mem
      (fun x => computeLaneState sqrtQ
        (updateStopTimes sqrtQ (vs.foldl (registerVehicle t) st) vs t).vehicle_stop_time
        x ((alookup x (vehiclesByLane st.lane_ids vs)).getD []) t)
      st.lane_ids l hl]
    have hgroups : alookup l (vehiclesByLane st.lane_ids vs) = some [] := by
      unfold vehiclesByLane
      rw [foldl_groupStep_alookup_ne vs _ l hnone]
      exact alookup_map_of_mem (fun _ => []) st.lane_ids l hl
    rw [hgroups]
    simp [computeLaneState]

/-- Witness for `c5_snapshot_complete_per_lane` at a concrete input: two
configured lanes, one occupied this tick, the other empty. -/
theorem c5_snapshot_complete_per_lane_witness :
    ((getAllStates (trackerUpdate (fun q => q)
        (TrackerState.init ["N_0", "S_0"]) [vehN0Fix] 0)).map
      Prod.fst = (TrackerState.init ["N_0", "S_0"]).lane_ids) ∧
    ∀ l ∈ (TrackerState.init ["N_0", "S_0"]).lane_ids,
      (∀ v ∈ [vehN0Fix], v.lane_id ≠ some l) →
      alookup l (getAllStates (trackerUpdate (fun q => q)
          (TrackerState.init ["N_0", "S_0"]) [vehN0Fix] 0)) =
        some (LaneState.mkDefault l 0) :=
  c5_snapshot_complete_per_lane (fun q => q)
    (TrackerState.init ["N_0", "S_0"]) [vehN0Fix] 0

/-! ### Wait-timer lemmas for the adaptive controller -/

theorem handleTransition_wait_times (st : AdaptiveState) (t : ℚ) (o : String)
    (s' : AdaptiveState) (h : handleTransition st t = some (o, s')) :
    s'.phase_wait_times = st.phase_wait_times := by
  rcases hys : st.yellow_start_time with _ | y <;>
    simp only [handleTransition, hys] at h <;>
    repeat' split at h
  all_goals
    first
    | exact Option.noConfusion h
    | (simp only [Option.some.injEq, Prod.mk.injEq] at h
       obtain ⟨h1, h2⟩ := h
       subst h2
       rfl)

theorem adaptiveUpdate_wait_times (st : AdaptiveState) (i : IntersectionState)
    (t : ℚ) (out : String) (st' : AdaptiveState)
    (hu : adaptiveUpdate st i t = some (out, st')) :
    st'.phase_wait_times = updateWaitTimes st.current_phase st.phase_wait_times := by
  simp only [adaptiveUpdate] at hu
  repeat' split at hu
  all_goals
    first
    | exact Option.noConfusion hu
    | (have h2 := handleTransition_wait_times _ _ _ _ hu
       simpa using h2)
    | (simp only [Option.some.injEq, Prod.mk.injEq] at hu
       obtain ⟨h1, h2⟩ := hu
       subst h2
       rfl)

/-- C7: in every (successful) run of `AdaptiveController.update`, the served
phase's wait timer is reset to zero and every other phase's timer is
incremented by the tick amount; and whenever a non-current phase's timer
exceeds `max_wait_before_override` (90 s), `_select_next_phase` is forced to
that phase. -/
theorem c7_starvation_override (st : AdaptiveState) (i : IntersectionState)
    (t : ℚ) (a b : ℚ) (out : String) (st' : AdaptiveState)
    (hw : st.phase_wait_times = [(.NS_THROUGH, a), (.EW_THROUGH, b)])
    (hc : st.current_phase = .NS_THROUGH ∨ st.current_phase = .EW_THROUGH)
    (hu : adaptiveUpdate st i t = some (out, st')) :
    alookup st.current_phase st'.phase_wait_times = some 0 ∧
    (∀ p, (p = .NS_THROUGH ∨ p = .EW_THROUGH) → p ≠ st.current_phase →
      alookup p st'.phase_wait_times =
        (alookup p st.phase_wait_times).map (fun x => x + 1/10)) ∧
    (∀ p w, (p = .NS_THROUGH ∨ p = .EW_THROUGH) → p ≠ st.current_phase →
      alookup p st.phase_wait_times = some w → maxWaitBeforeOverride < w →
      selectNextPhase st.current_phase st.phase_wait_times = p) := by
  have hwt := adaptiveUpdate_wait_times st i t out st' hu
  rcases hc with hc | hc <;>
    rw [hwt, hw, hc] <;>
    refine ⟨?_, ?_, ?_⟩
  · simp [updateWaitTimes, dictSet, alookup]
  · rintro p (rfl | rfl) hne
    · exact absurd rfl hne
    · simp [updateWaitTimes, dictSet, alookup, hw]
  · rintro p w (rfl | rfl) hne hlk hgt
    · exact absurd rfl hne
    · have hwb : b = w := by simpa [alookup] using hlk
      subst hwb
      simp [selectNextPhase, List.find?, hgt]
  · simp [updateWaitTimes, dictSet, alookup]
  · rintro p (rfl | rfl) hne
    · simp [updateWaitTimes, dictSet, alookup, hw]
    · exact absurd rfl hne
  · rintro p w (rfl | rfl) hne hlk hgt
    · have hwa : a = w := by simpa [alookup] using hlk
      subst hwa
      simp [selectNextPhase, List.find?, hgt]
    · exact absurd rfl hne

/-- Concrete adaptive-controller state with the EW timer beyond the 90 s
override bound. -/
def adStateFixture : AdaptiveState :=
  { AdaptiveState.init with
    phase_wait_times := [(.NS_THROUGH, 0), (.EW_THROUGH, 91)] }

/-- Witness for `c7_starvation_override` at a concrete input. -/
theorem c7_starvation_override_witness :
    alookup adStateFixture.current_phase
      ({ adStateFixture with
          phase_wait_times :=
            [(.NS_THROUGH, 0), (.EW_THROUGH, 911/10)] } : AdaptiveState).phase_wait_times
        = some 0 ∧
    (∀ p, (p = PhaseType.NS_THROUGH ∨ p = PhaseType.EW_THROUGH) →
      p ≠ adStateFixture.current_phase →
      alookup p ({ adStateFixture with
          phase_wait_times :=
            [(.NS_THROUGH, 0), (.EW_THROUGH, 911/10)] } : AdaptiveState).phase_wait_times =
        (alookup p adStateFixture.phase_wait_times).map (fun x => x + 1/10)) ∧
    (∀ p w, (p = PhaseType.NS_THROUGH ∨ p = PhaseType.EW_THROUGH) →
      p ≠ adStateFixture.current_phase →
      alookup p adStateFixture.phase_wait_times = some w →
      maxWaitBeforeOverride < w →
      selectNextPhase adStateFixture.current_phase
        adStateFixture.phase_wait_times = p) :=
  c7_starvation_override adStateFixture emptyIState 0 0 91 "GGGrrrGGGrrr"
    ({ adStateFixture with
        phase_wait_times := [(.NS_THROUGH, 0), (.EW_THROUGH, 911/10)] })
    rfl (Or.inl rfl)
    (by have hne : ¬(PhaseType.EW_THROUGH = PhaseType.NS_THROUGH) := by decide
        norm_num [adaptiveUpdate, adStateFixture, AdaptiveState.init,
          updateWaitTimes, dictSet, alookup, phasesLookup, hne])

/-! ### Well-formedness of the emergency FSM's forced phase -/

/-- In an active state the FSM's forced phase is one of the two emergency
phases (the only values `_get_emergency_phase` ever assigns). -/
def EmFSM.wellFormedPhase (f : EmFSM) : Prop :=
  (f.state = .PREEMPTING ∨ f.state = .CLEARING) →
  (f.emergency_phase = some .EMERGENCY_NS ∨
   f.emergency_phase = some .EMERGENCY_EW)

theorem getEmergencyPhase_cases (s : String) :
    getEmergencyPhase s = .EMERGENCY_NS ∨ getEmergencyPhase s = .EMERGENCY_EW := by
  unfold getEmergencyPhase
  split_ifs <;> simp

theorem emergencyUpdate_wf (f : EmFSM) (i : IntersectionState) (t : ℚ)
    (h : f.wellFormedPhase) : (emergencyUpdate f i t).wellFormedPhase := by
  rcases hde : detectEmergency i with ⟨he, ap, dist⟩
  unfold EmFSM.wellFormedPhase at h ⊢
  cases hs : f.state
  case NORMAL =>
    rcases dist with _ | d
    · simp [emergencyUpdate, hde, hs]
    · simp only [emergencyUpdate, hde, hs]
      split_ifs <;> simp [hs]
  case DETECTED =>
    rcases dist with _ | d
    · simp [emergencyUpdate, hde, hs]
    · simp only [emergencyUpdate, hde, hs]
      rcases getEmergencyPhase_cases (ap.getD "") with hgp | hgp <;>
        split_ifs <;> simp [hgp, hs]
  case PREEMPTING =>
    have hph := h (Or.inl hs)
    rcases dist with _ | d
    · simp [emergencyUpdate, hde, hs, hph]
    · simp only [emergencyUpdate, hde, hs]
      split_ifs <;> simp [hph, hs]
  case CLEARING =>
    have hph := h (Or.inr hs)
    simp only [emergencyUpdate, hde, hs]
    split_ifs <;> simp [hph, hs]
  case COOLDOWN =>
    simp only [emergencyUpdate, hde, hs]
    split_ifs <;> simp [hs]

/-- C1: at every tick of the integrated arbiter, exactly one controller
determines the output.  If the emergency FSM reports active after its
update, the arbiter returns the forced emergency phase's configured green
signal string verbatim and the adaptive controller's state is untouched
(its `update` is not invoked); otherwise the arbiter returns exactly the
adaptive controller's `update(state, now)` result, unmodified. -/
theorem c1_arbiter_mutual_exclusion (s : IntegratedState)
    (i : IntersectionState) (t : ℚ) (hwf : s.emergency.wellFormedPhase) :
    ((getSignalCommand (emergencyUpdate s.emergency i t)).1 = true →
      ∃ p cfg, (getSignalCommand (emergencyUpdate s.emergency i t)).2 = some p ∧
        phasesLookup p = some cfg ∧
        integratedUpdate s i t =
          some (cfg.sumo_state_green,
            { adaptive := s.adaptive
              emergency := emergencyUpdate s.emergency i t
              in_emergency_mode := true })) ∧
    ((getSignalCommand (emergencyUpdate s.emergency i t)).1 = false →
      integratedUpdate s i t = (adaptiveUpdate s.adaptive i t).map
        (fun r => (r.1,
          { adaptive := r.2
            emergency := emergencyUpdate s.emergency i t
            in_emergency_mode := false }))) := by
  have hwf' := emergencyUpdate_wf s.emergency i t hwf
  unfold EmFSM.wellFormedPhase at hwf'
  by_cases hact : ((emergencyUpdate s.emergency i t).state = .PREEMPTING ∨
      (emergencyUpdate s.emergency i t).state = .CLEARING)
  · have hph := hwf' hact
    constructor
    · intro _
      rcases hph with hp | hp
      · rcases hpl : phasesLookup PhaseType.EMERGENCY_NS with _ | cfg
        · simp [phasesLookup] at hpl
        · exact ⟨.EMERGENCY_NS, cfg, by simp [getSignalCommand, hact, hp],
            hpl, by simp [integratedUpdate, getSignalCommand, hact, hp, hpl]⟩
      · rcases hpl : phasesLookup PhaseType.EMERGENCY_EW with _ | cfg
        · simp [phasesLookup] at hpl
        · exact ⟨.EMERGENCY_EW, cfg, by simp [getSignalCommand, hact, hp],
            hpl, by simp [integratedUpdate, getSignalCommand, hact, hp, hpl]⟩
    · intro hfalse
      exfalso
      simp [getSignalCommand, hact] at hfalse
  · constructor
    · intro htrue
      exfalso
      simp [getSignalCommand, hact] at htrue
    · intro _
      simp [integratedUpdate, getSignalCommand, hact]

/-- Concrete integrated-controller state whose emergency FSM is preempting
with a north-approach forced phase. -/
def integratedFixture : IntegratedState :=
  { adaptive := AdaptiveState.init
    emergency :=
      { state := .PREEMPTING, emergency_approach := some "N"
        emergency_distance := some 50
        emergency_phase := some .EMERGENCY_NS, state_entry_time := 0 }
    in_emergency_mode := false }

/-- Witness for `c1_arbiter_mutual_exclusion` at a concrete input. -/
theorem c1_arbiter_mutual_exclusion_witness :
    ((getSignalCommand (emergencyUpdate integratedFixture.emergency emptyIState 0)).1 = true →
      ∃ p cfg,
        (getSignalCommand (emergencyUpdate integratedFixture.emergency emptyIState 0)).2 = some p ∧
        phasesLookup p = some cfg ∧
        integratedUpdate integratedFixture emptyIState 0 =
          some (cfg.sumo_state_green,
            { adaptive := integratedFixture.adaptive
              emergency := emergencyUpdate integratedFixture.emergency emptyIState 0
              in_emergency_mode := true })) ∧
    ((getSignalCommand (emergencyUpdate integratedFixture.emergency emptyIState 0)).1 = false →
      integratedUpdate integratedFixture emptyIState 0 =
        (adaptiveUpdate integratedFixture.adaptive emptyIState 0).map
          (fun r => (r.1,
            { adaptive := r.2
              emergency := emergencyUpdate integratedFixture.emergency emptyIState 0
              in_emergency_mode := false }))) :=
  c1_arbiter_mutual_exclusion integratedFixture emptyIState 0
    (fun _ => Or.inl rfl)

/-- C4: a vehicle moving (speed at or above the 0.5 m/s threshold) at `t = 0`,
stopped below the threshold at `t = 5` and still stopped at `t = 10` yields
`avg_waiting_time = 5.0` for its lane at `t = 10`: the waiting clock starts at
the first tick the speed drops below the threshold, not at first
observation. -/
theorem c4_waiting_time_from_stop_event (sqrtQ : ℚ → ℚ) (L : String)
    (k : ℤ) (cn : String) (em : Bool) (conf : ℚ) (pos : ℚ × ℚ)
    (v0 v5 v10 : ℚ × ℚ) (d : ℚ) (bb : ℚ × ℚ × ℚ × ℚ)
    (hL : ¬(L = ""))
    (h0 : stoppedThresholdSq ≤ speedSq v0)
    (h5 : speedSq v5 < stoppedThresholdSq)
    (h10 : speedSq v10 < stoppedThresholdSq) :
    ((alookup L (getAllStates
        (trackerUpdate sqrtQ
          (trackerUpdate sqrtQ
            (trackerUpdate sqrtQ (TrackerState.init [L])
              [⟨k, cn, em, conf, pos, v0, some L, d, bb⟩] 0)
            [⟨k, cn, em, conf, pos, v5, some L, d, bb⟩] 5)
          [⟨k, cn, em, conf, pos, v10, some L, d, bb⟩] 10))).map
      (fun s => s.avg_waiting_time)) = some 5 := by
  have h0' : ¬(speedSq v0 < stoppedThresholdSq) := not_lt.2 h0
  have e1 : trackerUpdate sqrtQ (TrackerState.init [L])
      [⟨k, cn, em, conf, pos, v0, some L, d, bb⟩] 0 =
      { lane_ids := [L]
        current_states := [(L, computeLaneState sqrtQ [(k, none)] L
          [⟨k, cn, em, conf, pos, v0, some L, d, bb⟩] 0)]
        vehicle_first_seen := [(k, 0)]
        vehicle_stop_time := [(k, none)]
        vehicle_last_speed := [(k, sqrtQ (speedSq v0))]
        vehicle_last_lane := [(k, L)] } := by
    simp [trackerUpdate, TrackerState.init, registerVehicle, vehiclesByLane,
      groupStep, updateStopTimes, updateStopTimesStep, cleanupOldVehicles,
      alookup, dictSet, dictModify, hL, h0']
  rw [e1]
  have e2 : trackerUpdate sqrtQ
      { lane_ids := [L]
        current_states := [(L, computeLaneState sqrtQ [(k, none)] L
          [⟨k, cn, em, conf, pos, v0, some L, d, bb⟩] 0)]
        vehicle_first_seen := [(k, 0)]
        vehicle_stop_time := [(k, none)]
        vehicle_last_speed := [(k, sqrtQ (speedSq v0))]
        vehicle_last_lane := [(k, L)] }
      [⟨k, cn, em, conf, pos, v5, some L, d, bb⟩] 5 =
      { lane_ids := [L]
        current_states := [(L, computeLaneState sqrtQ [(k, some 5)] L
          [⟨k, cn, em, conf, pos, v5, some L, d, bb⟩] 5)]
        vehicle_first_seen := [(k, 0)]
        vehicle_stop_time := [(k, some 5)]
        vehicle_last_speed := [(k, sqrtQ (speedSq v5))]
        vehicle_last_lane := [(k, L)] } := by
    simp [trackerUpdate, registerVehicle, vehiclesByLane, groupStep,
      updateStopTimes, updateStopTimesStep, cleanupOldVehicles, alookup,
      dictSet, dictModify, hL, h5]
  rw [e2]
  have e3 : getAllStates (trackerUpdate sqrtQ
      { lane_ids := [L]
        current_states := [(L, computeLaneState sqrtQ [(k, some 5)] L
          [⟨k, cn, em, conf, pos, v5, some L, d, bb⟩] 5)]
        vehicle_first_seen := [(k, 0)]
        vehicle_stop_time := [(k, some 5)]
        vehicle_last_speed := [(k, sqrtQ (speedSq v5))]
        vehicle_last_lane := [(k, L)] }
      [⟨k, cn, em, conf, pos, v10, some L, d, bb⟩] 10) =
      [(L, computeLaneState sqrtQ [(k, some 5)] L
        [⟨k, cn, em, conf, pos, v10, some L, d, bb⟩] 10)] := by
    simp [trackerUpdate, registerVehicle, vehiclesByLane, groupStep,
      updateStopTimes, updateStopTimesStep, cleanupOldVehicles, getAllStates,
      alookup, dictSet, dictModify, hL, h10]
  rw [e3]
  simp only [alookup, if_pos rfl, Option.map_some]
  simp only [computeLaneState, alookup, listMean, List.filterMap, h5, h10]
  norm_num [h10]

/-- Witness for `c4_waiting_time_from_stop_event` at a concrete input. -/
theorem c4_waiting_time_from_stop_event_witness :
    ((alookup "N_0" (getAllStates
        (trackerUpdate (fun q => q)
          (trackerUpdate (fun q => q)
            (trackerUpdate (fun q => q) (TrackerState.init ["N_0"])
              [⟨1, "car", false, 1, (0, 0), (1, 0), some "N_0", 10, (0, 0, 0, 0)⟩] 0)
            [⟨1, "car", false, 1, (0, 0), (0, 0), some "N_0", 10, (0, 0, 0, 0)⟩] 5)
          [⟨1, "car", false, 1, (0, 0), (0, 0), some "N_0", 10, (0, 0, 0, 0)⟩] 10))).map
      (fun s => s.avg_waiting_time)) = some 5 :=
  c4_waiting_time_from_stop_event (fun q => q) "N_0" 1 "car" false 1 (0, 0)
    (1, 0) (0, 0) (0, 0) 10 (0, 0, 0, 0)
    (by decide)
    (by norm_num [speedSq, stoppedThresholdSq])
    (by norm_num [speedSq, stoppedThresholdSq])
    (by norm_num [speedSq, stoppedThresholdSq])

/-- Stopped test vehicle 10 m from the stop line in lane `N_0`. -/
def c8Veh : PerceivedVehicle :=
  ⟨1, "car", false, 1, (0, 0), (0, 0), some "N_0", 10, (0, 0, 0, 0)⟩

/-- The raw lane state produced for `c8Veh` at `t = 0`. -/
def ls1Fix : LaneState :=
  { lane_id := "N_0", timestamp := 0, vehicle_count := 1
    stopped_vehicles := 1, queue_length := 10, queue_vehicle_count := 1
    density := 1, avg_speed := 0, avg_waiting_time := 0
    has_emergency_vehicle := false, emergency_vehicle_distance := none
    vehicle_distances := [10], vehicle_speeds := [0] }

/-- Tracker state after the `t = 0` update with `c8Veh`. -/
def tr1Fix : TrackerState :=
  { lane_ids := ["N_0"], current_states := [("N_0", ls1Fix)]
    vehicle_first_seen := [(1, 0)], vehicle_stop_time := [(1, some 0)]
    vehicle_last_speed := [(1, 0)], vehicle_last_lane := [(1, "N_0")] }

/-- Smoother state after the `t = 0` update (series initialised to the raw
values). -/
def sm1Fix : SmootherState :=
  { queueF := [("N_0_queue_length", 10)], densityF := [("N_0_density", 1)]
    waitF := [("N_0_avg_waiting_time", 0)], countF := [("N_0_vehicle_count", 1)] }

/-- Estimator state after the `t = 0` update. -/
def es1Fix : EstimatorState :=
  { tracker := tr1Fix, smoother := sm1Fix, enable_smoothing := true
    lane_ids := ["N_0"] }

/-- Tracker state after the empty `t = 1` update. -/
def tr2Fix : TrackerState :=
  { lane_ids := ["N_0"]
    current_states := [("N_0", LaneState.mkDefault "N_0" 1)]
    vehicle_first_seen := [(1, 0)], vehicle_stop_time := [(1, some 0)]
    vehicle_last_speed := [(1, 0)], vehicle_last_lane := [(1, "N_0")] }

theorem estimator_approach_metrics_eq (sqrtQ : ℚ → ℚ) (es : EstimatorState)
    (vs : List PerceivedVehicle) (t : ℚ) :
    (estimatorUpdate sqrtQ es vs t).1.approach_metrics =
      ["N", "S", "E", "W"].map
        (fun a => (a, getApproachMetrics (trackerUpdate sqrtQ es.tracker vs t) a)) := by
  cases he : es.enable_smoothing <;> simp [estimatorUpdate, he]

theorem estimator_lane_states_smoothed (sqrtQ : ℚ → ℚ) (es : EstimatorState)
    (vs : List PerceivedVehicle) (t : ℚ) (h : es.enable_smoothing = true) :
    (estimatorUpdate sqrtQ es vs t).1.lane_states =
      (smoothStates es.smoother
        (getAllStates (trackerUpdate sqrtQ es.tracker vs t))).1 := by
  simp [estimatorUpdate, h]

theorem computeLaneState_c8Veh :
    computeLaneState (fun q => q) [((1 : ℤ), some (0 : ℚ))] "N_0" [c8Veh] 0 =
      ls1Fix := by
  norm_num [computeLaneState, c8Veh, ls1Fix, speedSq, stoppedThresholdSq,
    queueDistanceThreshold, laneLength, alookup, listMean, listMaxD, listMinO,
    List.filterMap_cons, List.filter_cons, List.foldl_cons]

theorem trackerUpdate_c8_tick0 :
    trackerUpdate (fun q => q) (TrackerState.init ["N_0"]) [c8Veh] 0 = tr1Fix := by
  have e1 : trackerUpdate (fun q => q) (TrackerState.init ["N_0"]) [c8Veh] 0 =
      { lane_ids := ["N_0"]
        current_states :=
          [("N_0", computeLaneState (fun q => q) [((1 : ℤ), some (0 : ℚ))] "N_0" [c8Veh] 0)]
        vehicle_first_seen := [(1, 0)], vehicle_stop_time := [(1, some 0)]
        vehicle_last_speed := [(1, 0)], vehicle_last_lane := [(1, "N_0")] } := by
    have hne : ¬("N_0" = "") := by decide
    norm_num [trackerUpdate, TrackerState.init, registerVehicle,
      vehiclesByLane, groupStep, updateStopTimes, updateStopTimesStep,
      cleanupOldVehicles, alookup, dictSet, dictModify, c8Veh, speedSq,
      stoppedThresholdSq, cleanupTimeout, hne, List.filter_cons,
      List.foldl_cons]
  rw [e1, computeLaneState_c8Veh]
  rfl

theorem estimatorUpdate_c8_tick0 :
    (estimatorUpdate (fun q => q) (EstimatorState.init ["N_0"] true)
      [c8Veh] 0).2 = es1Fix := by
  have hk1 : ("N_0" ++ "_" ++ "queue_length" : String) = "N_0_queue_length" := by decide
  have hk2 : ("N_0" ++ "_" ++ "density" : String) = "N_0_density" := by decide
  have hk3 : ("N_0" ++ "_" ++ "avg_waiting_time" : String) = "N_0_avg_waiting_time" := by decide
  have hk4 : ("N_0" ++ "_" ++ "vehicle_count" : String) = "N_0_vehicle_count" := by decide
  simp only [estimatorUpdate, EstimatorState.init]
  rw [trackerUpdate_c8_tick0]
  simp [getAllStates, tr1Fix, ls1Fix, smoothStates, smoothOneState,
    smootherUpdate, emaUpdate, alookup, dictSet, hk1, hk2, hk3, hk4, es1Fix,
    sm1Fix]

theorem trackerUpdate_c8_tick1 :
    trackerUpdate (fun q => q) tr1Fix [] 1 = tr2Fix := by
  norm_num [trackerUpdate, tr1Fix, tr2Fix, registerVehicle, vehiclesByLane,
    groupStep, updateStopTimes, updateStopTimesStep, computeLaneState,
    cleanupOldVehicles, alookup, dictSet, dictModify, cleanupTimeout,
    LaneState.mkDefault]

/-- C8 counterexample: with smoothing enabled, after a vehicle is seen at
`t = 0` and the lane empties at `t = 1`, the `N` approach's
`total_queue_length` in the returned `IntersectionState` is `0` (computed
from the tracker's raw states) while the sum of `queue_length` over the
smoothed `N`-prefixed `lane_states` of the same snapshot is `7` — so the
approach aggregation is not computed from the smoothed lane states. -/
theorem c8_approach_metrics_not_smoothed_cx :
    ((alookup "N" (estimatorUpdate (fun q => q)
        (estimatorUpdate (fun q => q) (EstimatorState.init ["N_0"] true)
          [c8Veh] 0).2 [] 1).1.approach_metrics).map
      (fun m => m.total_queue_length)) ≠
    some ((((estimatorUpdate (fun q => q)
        (estimatorUpdate (fun q => q) (EstimatorState.init ["N_0"] true)
          [c8Veh] 0).2 [] 1).1.lane_states.filter
        (fun p => strStarts p.1 ("N" ++ "_"))).map
      (fun p => p.2.queue_length)).foldl (· + ·) 0) := by
  rw [estimatorUpdate_c8_tick0]
  rw [estimator_approach_metrics_eq,
    estimator_lane_states_smoothed (fun q => q) es1Fix [] 1 rfl]
  have htr : trackerUpdate (fun q => q) es1Fix.tracker [] 1 = tr2Fix :=
    trackerUpdate_c8_tick1
  rw [htr]
  have hk0 : ("N" ++ "_" : String) = "N_" := by decide
  have hk1 : ("N_0" ++ "_" ++ "queue_length" : String) = "N_0_queue_length" := by decide
  have hk2 : ("N_0" ++ "_" ++ "density" : String) = "N_0_density" := by decide
  have hk3 : ("N_0" ++ "_" ++ "avg_waiting_time" : String) = "N_0_avg_waiting_time" := by decide
  have hk4 : ("N_0" ++ "_" ++ "vehicle_count" : String) = "N_0_vehicle_count" := by decide
  norm_num [getApproachMetrics, getApproachState, getAllStates, tr2Fix,
    smoothStates, smoothOneState, smootherUpdate, emaUpdate, es1Fix, sm1Fix,
    alookup, dictSet, strStarts, listStarts, LaneState.mkDefault, listMean,
    intTrunc, hk0, hk1, hk2, hk3, hk4]

/-- C8 amended: in `TrafficStateEstimator.update` the per-approach
aggregation is computed by `lane_tracker.get_approach_metrics`, i.e. from the
tracker's raw (unsmoothed) states after the tick's update, while (when
smoothing is enabled) the `lane_states` stored in the same
`IntersectionState` — and the intersection-level aggregates derived from
them — are the smoothed copies. -/
theorem c8_approach_metrics_from_raw_states (sqrtQ : ℚ → ℚ)
    (es : EstimatorState) (vs : List PerceivedVehicle) (t : ℚ) :
    (estimatorUpdate sqrtQ es vs t).1.approach_metrics =
      ["N", "S", "E", "W"].map
        (fun a => (a, getApproachMetrics (trackerUpdate sqrtQ es.tracker vs t) a)) ∧
    (es.enable_smoothing = true →
      (estimatorUpdate sqrtQ es vs t).1.lane_states =
        (smoothStates es.smoother
          (getAllStates (trackerUpdate sqrtQ es.tracker vs t))).1) := by
  cases he : es.enable_smoothing <;> constructor <;> simp [estimatorUpdate, he]

/-- Witness for `c8_approach_metrics_from_raw_states` at a concrete input. -/
theorem c8_approach_metrics_from_raw_states_witness :
    (estimatorUpdate (fun q => q) (EstimatorState.init ["N_0"] true) [] 0).1.approach_metrics =
      ["N", "S", "E", "W"].map
        (fun a => (a, getApproachMetrics
          (trackerUpdate (fun q => q) (EstimatorState.init ["N_0"] true).tracker [] 0) a)) ∧
    ((EstimatorState.init ["N_0"] true).enable_smoothing = true →
      (estimatorUpdate (fun q => q) (EstimatorState.init ["N_0"] true) [] 0).1.lane_states =
        (smoothStates (EstimatorState.init ["N_0"] true).smoother
          (getAllStates
            (trackerUpdate (fun q => q) (EstimatorState.init ["N_0"] true).tracker [] 0))).1) :=
  c8_approach_metrics_from_raw_states (fun q => q)
    (EstimatorState.init ["N_0"] true) [] 0

end Traffic
